import Mathlib

/-!
# Verification of the Neotron Pico BIOS VGA subsystem

A shallow embedding of the VGA driver (`src/vga/mod.rs`) and the BIOS API
layer (`src/main.rs`) of the Neotron-Pico-BIOS firmware, together with
proofs and refutations of the specification's claims about it.

Machine integers (`u8`/`u16`/`u32`) are modelled as `Nat`; all the concrete
values involved are small enough that no wrap-around occurs, except where
noted.  Mutable statics become explicit state records passed through pure
functions.  Raw-pointer grids and font tables become functions `Nat → _`
indexed by the same offsets the pointer arithmetic uses.
-/

namespace Neotron

/-! ## The video `Mode` value object

`crate::common::video::Mode` comes from the `neotron-common-bios` crate,
which is not part of this repository's sources.  Modelled from the spec:
a Mode is "a small value object describing timing standard (two supported:
one at 60 Hz/480 lines, one at 70 Hz/400 lines) and text cell format (two
font heights supported)", plus the horizontal/vertical 2x-scaling flags
that `set_video_mode` matches on.  We keep the fields unpacked; no claim
observes the `u8` packing. -/

/-- Video timing standard.  `T800x600` stands for any timing other than the
two the driver supports (the common crate has more). -/
inductive Timing where
  | T640x480
  | T640x400
  | T800x600
deriving DecidableEq, Repr

/-- Text cell / pixel format.  `Chunky32` stands for any non-text format
(the common crate has several). -/
inductive Format where
  | Text8x16
  | Text8x8
  | Chunky32
deriving DecidableEq, Repr

/-- A video mode: timing standard, format, and the two pixel-doubling flags. -/
structure Mode where
  timing : Timing
  format : Format
  horiz2x : Bool
  vert2x : Bool
deriving DecidableEq, Repr

/-- Rust `Mode::new(timing, format)`: both scaling flags off.
Modelled from the spec: the constructor used throughout the BIOS. -/
def Mode.new (t : Timing) (f : Format) : Mode :=
  { timing := t, format := f, horiz2x := false, vert2x := false }

/-- Rust `Mode::vertical_lines()`.  Modelled from the spec: "`get visible scan
line count` returns the documented constant (480 or 400)"; 600 for the
unsupported stand-in timing. -/
def Mode.vertical_lines (m : Mode) : Nat :=
  match m.timing with
  | Timing.T640x480 => 480
  | Timing.T640x400 => 400
  | Timing.T800x600 => 600

/-- Rust `Mode::horizontal_pixels()`.  Modelled from the spec: both supported
timings are 640 pixels wide. -/
def Mode.horizontal_pixels (m : Mode) : Nat :=
  match m.timing with
  | Timing.T640x480 => 640
  | Timing.T640x400 => 640
  | Timing.T800x600 => 800

/-- Rust `Mode::text_width()`.  Modelled from the spec: text modes are 8 pixels
per glyph column; `None` for non-text formats. -/
def Mode.text_width (m : Mode) : Option Nat :=
  match m.format with
  | Format.Text8x16 => some (m.horizontal_pixels / 8)
  | Format.Text8x8 => some (m.horizontal_pixels / 8)
  | Format.Chunky32 => none

/-- Rust `Mode::text_height()`.  Modelled from the spec: visible lines divided by
the font height (16 or 8); `None` for non-text formats. -/
def Mode.text_height (m : Mode) : Option Nat :=
  match m.format with
  | Format.Text8x16 => some (m.vertical_lines / 16)
  | Format.Text8x8 => some (m.vertical_lines / 8)
  | Format.Chunky32 => none

/-! ## Timing buffers (`ScanlineTimingBuffer`, `TimingBuffer`)

From `src/vga/mod.rs`.  Each scan-line category holds four 32-bit words,
one per horizontal period, produced by `make_timing`. -/

/-- Rust `SyncPolarity` from `src/vga/mod.rs`. -/
inductive SyncPolarity where
  | Positive
  | Negative
deriving DecidableEq, Repr

/-- Rust `SyncPolarity::enabled()`. -/
def SyncPolarity.enabled : SyncPolarity → Bool
  | SyncPolarity.Positive => true
  | SyncPolarity.Negative => false

/-- Rust `SyncPolarity::disabled()`. -/
def SyncPolarity.disabled : SyncPolarity → Bool
  | SyncPolarity.Positive => false
  | SyncPolarity.Negative => true

/-- Rust `ScanlineTimingBuffer`: the four timing FIFO words for one scan-line. -/
structure ScanlineTimingBuffer where
  data : List Nat
deriving DecidableEq, Repr

namespace ScanlineTimingBuffer

/-- Rust `ScanlineTimingBuffer::make_timing(period, hsync, vsync, raise_irq)`:
pack a period length (in system clocks) and pin states into a timing FIFO
word.  `0xc000` is the PIO "set IRQ 0" instruction, `0xa042` a PIO no-op. -/
def make_timing (period : Nat) (hsync vsync raise_irq : Bool) : Nat :=
  let command : Nat := if raise_irq then 0xc000 else 0xa042
  let value : Nat := (if hsync then 1 else 0) ||| (if vsync then 2 else 0)
  let value := value ||| ((period - 6) <<< 2)
  value ||| (command <<< 16)

/-- Rust `ScanlineTimingBuffer::new_v_visible`: timing words for a visible
scan-line.  The back porch is shortened by 5 system clocks and the visible
period lengthened by 5 to compensate for interrupt/PIO start latency. -/
def new_v_visible (hsync vsync : SyncPolarity) (t0 t1 t2 t3 : Nat) :
    ScanlineTimingBuffer :=
  { data :=
      [ make_timing (t0 * 10) hsync.disabled vsync.disabled false,
        make_timing (t1 * 10) hsync.enabled vsync.disabled false,
        make_timing (t2 * 10 - 5) hsync.disabled vsync.disabled false,
        make_timing (t3 * 10 + 5) hsync.disabled vsync.disabled true ] }

/-- Rust `ScanlineTimingBuffer::new_v_porch`: timing words for a v-blank porch
scan-line (no corrections, no IRQ). -/
def new_v_porch (hsync vsync : SyncPolarity) (t0 t1 t2 t3 : Nat) :
    ScanlineTimingBuffer :=
  { data :=
      [ make_timing (t0 * 10) hsync.disabled vsync.disabled false,
        make_timing (t1 * 10) hsync.enabled vsync.disabled false,
        make_timing (t2 * 10) hsync.disabled vsync.disabled false,
        make_timing (t3 * 10) hsync.disabled vsync.disabled false ] }

/-- Rust `ScanlineTimingBuffer::new_v_pulse`: timing words for a v-sync pulse
scan-line (v-sync asserted throughout, no corrections, no IRQ). -/
def new_v_pulse (hsync vsync : SyncPolarity) (t0 t1 t2 t3 : Nat) :
    ScanlineTimingBuffer :=
  { data :=
      [ make_timing (t0 * 10) hsync.disabled vsync.enabled false,
        make_timing (t1 * 10) hsync.enabled vsync.enabled false,
        make_timing (t2 * 10) hsync.disabled vsync.enabled false,
        make_timing (t3 * 10) hsync.disabled vsync.enabled false ] }

end ScanlineTimingBuffer

/-- Rust `TimingBuffer`: the three per-category timing buffers plus the derived
scan-line boundary numbers for one video mode. -/
structure TimingBuffer where
  visible_line : ScanlineTimingBuffer
  vblank_porch_buffer : ScanlineTimingBuffer
  vblank_sync_buffer : ScanlineTimingBuffer
  visible_lines_ends_at : Nat
  front_porch_end_at : Nat
  sync_pulse_ends_at : Nat
  back_porch_ends_at : Nat
deriving DecidableEq, Repr

namespace TimingBuffer

/-- Rust `TimingBuffer::make_640x400()`: 640 x 400 @ 70 Hz timings. -/
def make_640x400 : TimingBuffer :=
  { visible_line :=
      ScanlineTimingBuffer.new_v_visible SyncPolarity.Negative SyncPolarity.Positive
        16 96 48 640
    vblank_porch_buffer :=
      ScanlineTimingBuffer.new_v_porch SyncPolarity.Negative SyncPolarity.Positive
        16 96 48 640
    vblank_sync_buffer :=
      ScanlineTimingBuffer.new_v_pulse SyncPolarity.Negative SyncPolarity.Positive
        16 96 48 640
    visible_lines_ends_at := 399
    front_porch_end_at := 399 + 12
    sync_pulse_ends_at := 399 + 12 + 2
    back_porch_ends_at := 399 + 12 + 2 + 35 }

/-- Rust `TimingBuffer::make_640x480()`: 640 x 480 @ 60 Hz timings. -/
def make_640x480 : TimingBuffer :=
  { visible_line :=
      ScanlineTimingBuffer.new_v_visible SyncPolarity.Negative SyncPolarity.Negative
        16 96 48 640
    vblank_porch_buffer :=
      ScanlineTimingBuffer.new_v_porch SyncPolarity.Negative SyncPolarity.Negative
        16 96 48 640
    vblank_sync_buffer :=
      ScanlineTimingBuffer.new_v_pulse SyncPolarity.Negative SyncPolarity.Negative
        16 96 48 640
    visible_lines_ends_at := 479
    front_porch_end_at := 479 + 10
    sync_pulse_ends_at := 479 + 10 + 2
    back_porch_ends_at := 479 + 10 + 2 + 33 }

end TimingBuffer

/-- Decode the period field of a timing FIFO word, inverting `make_timing`:
bits 2..15 hold `period - 6`. -/
def decodePeriod (word : Nat) : Nat :=
  ((word >>> 2) &&& 0x3FFF) + 6

/-- Total length of a scan-line category in system clocks: the sum of the
decoded periods of its four timing words. -/
def ScanlineTimingBuffer.totalPeriod (b : ScanlineTimingBuffer) : Nat :=
  (b.data.map decodePeriod).sum

/-! ## Mode-selection state (`VIDEO_MODE`, `TIMING_BUFFER`, grid dimensions)

The mutable statics of `src/vga/mod.rs` that `set_video_mode` updates,
gathered into one record. -/

/-- The statics touched by a mode change: `VIDEO_MODE`, `TIMING_BUFFER`,
`NUM_TEXT_COLS` and `NUM_TEXT_ROWS`. -/
structure VgaModeState where
  videoMode : Mode
  timingBuffer : TimingBuffer
  numTextCols : Nat
  numTextRows : Nat
deriving DecidableEq, Repr

/-- The boot-time values of the mode statics: 640x480 Text8x16, 80 x 30. -/
def VgaModeState.boot : VgaModeState :=
  { videoMode := Mode.new Timing.T640x480 Format.Text8x16
    timingBuffer := TimingBuffer.make_640x480
    numTextCols := 80
    numTextRows := 30 }

/-- Rust `vga::set_video_mode(mode)`: accept only the 640x480 / 640x400 timings
with a text format and no pixel doubling; on success store the mode,
rebuild `TIMING_BUFFER`, and refresh `NUM_TEXT_COLS` / `NUM_TEXT_ROWS`;
on rejection change nothing.  Returns `(mode_ok, new state)`. -/
def set_video_mode (mode : Mode) (s : VgaModeState) : Bool × VgaModeState :=
  let step : Bool × VgaModeState :=
    match mode.timing, mode.format, mode.horiz2x, mode.vert2x with
    | Timing.T640x480, Format.Text8x16, false, false =>
        (true, { s with videoMode := mode, timingBuffer := TimingBuffer.make_640x480 })
    | Timing.T640x480, Format.Text8x8, false, false =>
        (true, { s with videoMode := mode, timingBuffer := TimingBuffer.make_640x480 })
    | Timing.T640x400, Format.Text8x16, false, false =>
        (true, { s with videoMode := mode, timingBuffer := TimingBuffer.make_640x400 })
    | Timing.T640x400, Format.Text8x8, false, false =>
        (true, { s with videoMode := mode, timingBuffer := TimingBuffer.make_640x400 })
    | _, _, _, _ => (false, s)
  let modeOk := step.fst
  let s1 := step.snd
  if modeOk then
    (modeOk,
      { s1 with
        numTextCols := (mode.text_width).getD 0
        numTextRows := (mode.text_height).getD 0 })
  else
    (modeOk, s1)

/-- Rust `vga::get_video_mode()`. -/
def get_video_mode (s : VgaModeState) : Mode :=
  s.videoMode

/-- Rust `vga::get_num_scan_lines()`: visible line count of the current mode. -/
def get_num_scan_lines (s : VgaModeState) : Nat :=
  (get_video_mode s).vertical_lines

/-- The BIOS API entry `main.rs::video_set_mode(mode)`: the call to
`vga::set_video_mode` is commented out in the source, so it returns
success unconditionally and touches no state.  `true` models
`common::Result::Ok(())`. -/
def video_set_mode_api (_mode : Mode) (s : VgaModeState) : Bool × VgaModeState :=
  (true, s)

/-- The scan-line `main.rs::video_wait_for_line(line)` busy-waits for:
`line.min(vga::get_num_scan_lines())`. -/
def video_wait_target (line : Nat) (s : VgaModeState) : Nat :=
  min line (get_num_scan_lines s)

/-! ## Scan-line buffers and the pixel-DMA interrupt branch

`LineBuffer` and the `pixel_dma_chan_irq` branch of `vga::irq()` from
`src/vga/mod.rs`.  The pixel array becomes a function from pair offsets to
packed 32-bit pixel-pair words; the DMA read-address register becomes a
tag recording which buffer was queued for playout. -/

/-- Rust `LineBuffer`: one scan-line's pixels plus the hand-off flag and the
line-number tag. -/
structure LineBuffer where
  length : Nat
  pixels : Nat → Nat
  ready_for_drawing : Bool
  line_number : Nat

namespace LineBuffer

/-- Rust `LineBuffer::set_ready(line_number)`: hand the buffer to the Render
Loop with a new target line. -/
def set_ready (b : LineBuffer) (line_number : Nat) : LineBuffer :=
  { b with line_number := line_number, ready_for_drawing := true }

/-- Rust `LineBuffer::mark_rendering_done()`: hand the buffer back to the DMA. -/
def mark_rendering_done (b : LineBuffer) : LineBuffer :=
  { b with ready_for_drawing := false }

/-- Rust `LineBuffer::is_ready_for_rendering()`. -/
def is_ready_for_rendering (b : LineBuffer) : Bool :=
  b.ready_for_drawing

/-- Rust `LineBuffer::is_rendering_done()`. -/
def is_rendering_done (b : LineBuffer) : Bool :=
  !b.is_ready_for_rendering

end LineBuffer

/-- Which of the two static line buffers an address refers to. -/
inductive WhichBuffer where
  | even
  | odd
deriving DecidableEq, Repr

/-- The statics touched by the pixel-DMA branch of `vga::irq()`:
`CURRENT_PLAYOUT_LINE`, the two line buffers, `CLASHED_COUNT`, the local
`TOTAL_LINES` counter, and the pixel DMA channel's read address. -/
structure PixelIrqState where
  current_playout_line : Nat
  evenBuf : LineBuffer
  oddBuf : LineBuffer
  clashed_count : Nat
  total_lines : Nat
  dma_pixel_read_addr : WhichBuffer

/-- The scan-line advance `vga::irq()` uses for both the next playout line
and the next draw line: `if p < ends_at { p + 1 } else { 0 }`. -/
def next_line (ends_at p : Nat) : Nat :=
  if p < ends_at then p + 1 else 0

/-- The pixel-DMA branch of `vga::irq()` (src/vga/mod.rs lines 1339-1394):
advance the playout line (wrapping at `visible_lines_ends_at`), queue the
opposite-parity buffer for playout — counting a clash if it is not yet
rendering-done — and mark the buffer just played as ready for rendering
with the line needed two lines ahead. -/
def pixel_irq (tb : TimingBuffer) (s : PixelIrqState) : PixelIrqState :=
  let last_playout_line := s.current_playout_line
  let next_playout_line := next_line tb.visible_lines_ends_at last_playout_line
  let next_draw_line := next_line tb.visible_lines_ends_at next_playout_line
  let s := { s with total_lines := s.total_lines + 1 }
  let s :=
    if last_playout_line &&& 1 = 0 then
      let clashed :=
        if !s.oddBuf.is_rendering_done then s.clashed_count + 1 else s.clashed_count
      { s with
        clashed_count := clashed
        dma_pixel_read_addr := WhichBuffer.odd
        evenBuf := s.evenBuf.set_ready next_draw_line }
    else
      let clashed :=
        if !s.evenBuf.is_rendering_done then s.clashed_count + 1 else s.clashed_count
      { s with
        clashed_count := clashed
        dma_pixel_read_addr := WhichBuffer.even
        oddBuf := s.oddBuf.set_ready next_draw_line }
  { s with current_playout_line := next_playout_line }

/-- Iterate the pixel-DMA interrupt branch `n` times. -/
def pixel_irq_iter (tb : TimingBuffer) : Nat → PixelIrqState → PixelIrqState
  | 0, s => s
  | n + 1, s => pixel_irq_iter tb n (pixel_irq tb s)

/-- Rust `vga::get_scan_line()`: the current value of `CURRENT_PLAYOUT_LINE`. -/
def get_scan_line (s : PixelIrqState) : Nat :=
  s.current_playout_line

/-! ## Fonts and the Render Loop (`render_scanline`)

The font modules `src/vga/font8.rs` and `src/vga/font16.rs` are not among
the provided sources, so the bitmap data is abstract; the `Font` layout
contract from `src/vga/mod.rs` ("arranged by row, so all the row 0s come
first, then all the row 1s") fixes what index holds which byte: row `r` of
glyph `g` lives at `data (r * 256 + g)`. -/

/-- Rust `Font`: height `1 <<< height_shift`, bitmap bytes arranged row-major
over all 256 glyphs. -/
structure Font where
  height_shift : Nat
  data : Nat → Nat

/-- Rust `font16::FONT`.  Modelled from the spec: the 8 x 16 font, so
`height_shift = 4`; its bitmap bytes are an arbitrary abstract table. -/
def font16FONT (bits : Nat → Nat) : Font :=
  { height_shift := 4, data := bits }

/-- Rust `font8::FONT`.  Modelled from the spec: the 8 x 8 font, so
`height_shift = 3`; its bitmap bytes are an arbitrary abstract table. -/
def font8FONT (bits : Nat → Nat) : Font :=
  { height_shift := 3, data := bits }

/-- A glyph+attribute cell of the shared text grid.  The
`neotron-common-bios` `GlyphAttr` packs these two bytes into a `u16`; no
claim observes the packing, so we keep the fields separate. -/
structure GlyphAttr where
  glyph : Nat
  attr : Nat
deriving DecidableEq, Repr

/-- Rust `TextColourLookup::lookup(attr, pixels)`: index the 512-entry table by
the bottom 7 attribute bits and the bottom 2 mono pixels. -/
def colour_lookup (entries : Nat → Nat) (attr : Nat) (pixels : Nat) : Nat :=
  entries ((((attr &&& 0x7F)) <<< 2) ||| (pixels &&& 0x03))

/-- The statics `render_scanline` reads: `VIDEO_MODE`'s format, the grid
dimensions, the glyph+attribute grid, the two font bitmap tables and the
colour look-up table. -/
structure RenderEnv where
  format : Format
  numRows : Nat
  numCols : Nat
  grid : Nat → GlyphAttr
  font8bits : Nat → Nat
  font16bits : Nat → Nat
  lut : Nat → Nat

/-- Point update of a `Nat`-indexed store (a raw `ptr::write`). -/
def upd (g : Nat → A) (k : Nat) (v : A) : Nat → A :=
  fun i => if i = k then v else g i

/-- One column of `render_scanline_text`: read the cell at
`row_start + col`, fetch its glyph's bitmap byte for this row, and write
the four looked-up pixel pairs at pair offsets `4*col ..= 4*col+3`. -/
def render_col (env : RenderEnv) (font_base row_start col : Nat)
    (fontData : Nat → Nat) (px : Nat → Nat) : Nat → Nat :=
  let glyphattr := env.grid (row_start + col)
  let attr := glyphattr.attr
  let glyph_index := glyphattr.glyph
  let mono_pixels := fontData (font_base + glyph_index)
  let pair_offset := 4 * col
  let px := upd px pair_offset (colour_lookup env.lut attr (mono_pixels >>> 6))
  let px := upd px (pair_offset + 1) (colour_lookup env.lut attr (mono_pixels >>> 4))
  let px := upd px (pair_offset + 2) (colour_lookup env.lut attr (mono_pixels >>> 2))
  upd px (pair_offset + 3) (colour_lookup env.lut attr mono_pixels)

/-- Rust `render_scanline_text::<N>`: render columns `0 .. n-1`. -/
def render_scanline_text (env : RenderEnv) (font_base row_start : Nat)
    (fontData : Nat → Nat) : Nat → (Nat → Nat) → Nat → Nat
  | 0, px => px
  | n + 1, px => render_col env font_base row_start n fontData
      (render_scanline_text env font_base row_start fontData n px)

/-- Rust `vga::render_scanline(scan_line_buffer)` (src/vga/mod.rs lines
1404-1465), minus the buffer-ready spin-wait and the SysTick cycle
accounting: select the font by format (unsupported formats return at
once), compute `text_row` and `font_row` from the buffer's line tag by
shift and mask, return untouched if `text_row ≥ num_rows`, otherwise
render 80 or 40 columns (any other width draws nothing) and finally mark
the buffer rendering-done. -/
def render_scanline (env : RenderEnv) (buf : LineBuffer) : LineBuffer :=
  match
    (match env.format with
      | Format.Text8x16 => some (font16FONT env.font16bits)
      | Format.Text8x8 => some (font8FONT env.font8bits)
      | Format.Chunky32 => none) with
  | none => buf
  | some font =>
    let num_rows := env.numRows
    let num_cols := env.numCols
    let current_line_num := buf.line_number
    let text_row := current_line_num >>> font.height_shift
    let font_row := current_line_num &&& ((1 <<< font.height_shift) - 1)
    if text_row ≥ num_rows then
      buf
    else
      let row_start := text_row * num_cols
      let font_base := font_row * 256
      let buf :=
        match num_cols with
        | 80 => { buf with pixels :=
            render_scanline_text env font_base row_start font.data 80 buf.pixels }
        | 40 => { buf with pixels :=
            render_scanline_text env font_base row_start font.data 40 buf.pixels }
        | _ => buf
      buf.mark_rendering_done

/-! ## The Text Console

`TextConsole` from `src/vga/mod.rs`: cursor, attribute, and the
`write_str` / `move_to` operations over the shared glyph+attribute grid.
Characters are represented by their Unicode scalar values. -/

/-- The Code Page 850 part of `Font::convert_char`: the explicit match
table for characters above 127, as an association list. -/
def cp850Table : List (Nat × Nat) :=
  [
    (0x00A0, 255), (0x00A1, 173), (0x00A2, 189), (0x00A3, 156),
    (0x00A4, 207), (0x00A5, 190), (0x00A6, 221), (0x00A7, 245),
    (0x00A8, 249), (0x00A9, 184), (0x00AA, 166), (0x00AB, 174),
    (0x00AC, 170), (0x00AD, 240), (0x00AE, 169), (0x00AF, 238),
    (0x00B0, 248), (0x00B1, 241), (0x00B2, 253), (0x00B3, 252),
    (0x00B4, 239), (0x00B5, 230), (0x00B6, 244), (0x00B7, 250),
    (0x00B8, 247), (0x00B9, 251), (0x00BA, 167), (0x00BB, 175),
    (0x00BC, 172), (0x00BD, 171), (0x00BE, 243), (0x00BF, 168),
    (0x00C0, 183), (0x00C1, 181), (0x00C2, 182), (0x00C3, 199),
    (0x00C4, 142), (0x00C5, 143), (0x00C6, 146), (0x00C7, 128),
    (0x00C8, 212), (0x00C9, 144), (0x00CA, 210), (0x00CB, 211),
    (0x00CC, 222), (0x00CD, 214), (0x00CE, 215), (0x00CF, 216),
    (0x00D0, 209), (0x00D1, 165), (0x00D2, 227), (0x00D3, 224),
    (0x00D4, 226), (0x00D5, 229), (0x00D6, 153), (0x00D7, 158),
    (0x00D8, 157), (0x00D9, 235), (0x00DA, 233), (0x00DB, 234),
    (0x00DC, 154), (0x00DD, 237), (0x00DE, 232), (0x00DF, 225),
    (0x00E0, 133), (0x00E1, 160), (0x00E2, 131), (0x00E3, 198),
    (0x00E4, 132), (0x00E5, 134), (0x00E6, 145), (0x00E7, 135),
    (0x00E8, 138), (0x00E9, 130), (0x00EA, 136), (0x00EB, 137),
    (0x00EC, 141), (0x00ED, 161), (0x00EE, 140), (0x00EF, 139),
    (0x00F0, 208), (0x00F1, 164), (0x00F2, 149), (0x00F3, 162),
    (0x00F4, 147), (0x00F5, 228), (0x00F6, 148), (0x00F7, 246),
    (0x00F8, 155), (0x00F9, 151), (0x00FA, 163), (0x00FB, 150),
    (0x00FC, 129), (0x00FD, 236), (0x00FE, 231), (0x00FF, 152),
    (0x0131, 213), (0x0192, 159), (0x2017, 242), (0x2500, 196),
    (0x2502, 179), (0x250C, 218), (0x2510, 191), (0x2514, 192),
    (0x2518, 217), (0x251C, 195), (0x2524, 180), (0x252C, 194),
    (0x2534, 193), (0x253C, 197), (0x2550, 205), (0x2551, 186),
    (0x2554, 201), (0x2557, 187), (0x255A, 200), (0x255D, 188),
    (0x2560, 204), (0x2563, 185), (0x2566, 203), (0x2569, 202),
    (0x256C, 206), (0x2580, 223), (0x2584, 220), (0x2588, 219),
    (0x2591, 176), (0x2592, 177), (0x2593, 178), (0x25A0, 254)
  ]

/-- Rust `Font::convert_char(input)`: identity on 7-bit ASCII, the CP850 table
above 127, `none` for anything unmapped. -/
def convert_char (input : Nat) : Option Nat :=
  if input ≤ 127 then
    some input
  else
    (cp850Table.lookup input)

/-- Rust `TextConsole::map_char_to_glyph`: only 7-bit ASCII is supported. -/
def map_char_to_glyph (input : Nat) : Option Nat :=
  if input ≤ 127 then some input else none

/-- Rust `Attr::new(fg, bg, blink)` from `neotron-common-bios`, with the bit
layout documented by the `TEXT_COLOUR_LOOKUP` comment in `src/vga/mod.rs`:
bit 7 blink, bits 6..3 foreground, bits 2..0 background. -/
def AttrNew (fg bg : Nat) (blink : Bool) : Nat :=
  (if blink then 128 else 0) ||| ((fg &&& 0xF) <<< 3) ||| (bg &&& 0x7)

/-- The state a `TextConsole` owns (`current_row`, `current_col`, `attr`)
together with the grid it writes through and the grid dimensions
(`NUM_TEXT_ROWS` / `NUM_TEXT_COLS`). -/
structure ConsoleState where
  row : Nat
  col : Nat
  attr : Nat
  numRows : Nat
  numCols : Nat
  grid : Nat → GlyphAttr

/-- Rust `TextConsole::move_to(row, col)`: each axis is updated only when in
range for the current dimensions. -/
def move_to (r c : Nat) (s : ConsoleState) : ConsoleState :=
  let s := if r < s.numRows then { s with row := r } else s
  if c < s.numCols then { s with col := c } else s

/-- Rust `TextConsole::write_at(glyphattr, buffer, row, col, num_cols)`: store
the cell at offset `col + num_cols * row`. -/
def write_at (glyphattr : GlyphAttr) (g : Nat → GlyphAttr) (row col num_cols : Nat) :
    Nat → GlyphAttr :=
  upd g (col + num_cols * row) glyphattr

/-- The blank cell `write_str` scrolls in: `GlyphAttr::new(Glyph(b' '), Attr(0))`. -/
def blankCell : GlyphAttr :=
  { glyph := 32, attr := 0 }

/-- Blank one row of the grid, as the `for blank_col in 0..num_cols` loop
of `write_str` does: write `blankCell` at `blank_col + num_cols * row`. -/
def blank_row (num_cols row : Nat) : Nat → (Nat → GlyphAttr) → Nat → GlyphAttr
  | 0, g => g
  | n + 1, g => upd (blank_row num_cols row n g) (n + num_cols * row) blankCell

/-- One character step of `TextConsole::write_str`: newline / carriage
return / printable dispatch, then the wrap-at-last-column check, then the
scroll-at-last-row check (`ptr::copy` moves every cell down by one row's
worth of offsets; the last row is blanked). -/
def write_char (ch : Nat) (s : ConsoleState) : ConsoleState :=
  let num_cols := s.numCols
  let num_rows := s.numRows
  let s :=
    if ch = 10 then
      { s with row := s.row + 1, col := 0 }
    else if ch = 13 then
      { s with col := 0 }
    else
      let glyph := (convert_char ch).getD 63
      let glyphattr : GlyphAttr := { glyph := glyph, attr := s.attr }
      { s with
        grid := write_at glyphattr s.grid s.row s.col num_cols
        col := s.col + 1 }
  let s := if s.col = num_cols then { s with col := 0, row := s.row + 1 } else s
  if s.row = num_rows then
    let row := num_rows - 1
    let scrolled : Nat → GlyphAttr := fun i =>
      if i < num_cols * (num_rows - 1) then s.grid (i + num_cols) else s.grid i
    { s with
      row := row
      grid := blank_row num_cols row num_cols scrolled }
  else
    s

/-- Rust `TextConsole::write_str(s)`: fold `write_char` over the characters. -/
def write_str (chars : List Nat) (s : ConsoleState) : ConsoleState :=
  chars.foldl (fun st ch => write_char ch st) s

/-! ## Concrete boot states used by witnesses -/

/-- A line buffer as `vga::init` leaves it: length 319, pixel words zero,
marked rendering-done, line tag 0. -/
def LineBuffer.boot : LineBuffer :=
  { length := 319, pixels := fun _ => 0, ready_for_drawing := false, line_number := 0 }

/-- The pixel-interrupt statics as `vga::init` leaves them. -/
def PixelIrqState.boot : PixelIrqState :=
  { current_playout_line := 0
    evenBuf := LineBuffer.boot
    oddBuf := LineBuffer.boot
    clashed_count := 0
    total_lines := 0
    dma_pixel_read_addr := WhichBuffer.even }

/-- The console over the static glyph grid at sign-on: cursor at origin,
white-on-black attribute, 80 x 30 grid of blank cells. -/
def ConsoleState.boot : ConsoleState :=
  { row := 0, col := 0, attr := AttrNew 15 0 false, numRows := 30, numCols := 80,
    grid := fun _ => blankCell }

/-! ## Helper lemmas -/

/-- The pixel-DMA branch always stores
`next_line visible_lines_ends_at last` into `CURRENT_PLAYOUT_LINE`. -/
lemma pixel_irq_playout (tb : TimingBuffer) (s : PixelIrqState) :
    (pixel_irq tb s).current_playout_line =
      next_line tb.visible_lines_ends_at s.current_playout_line := by
  unfold pixel_irq
  dsimp only

/-- Helper: `next_line` never exceeds the wrap bound. -/
lemma next_line_le (ends_at p : Nat) : next_line ends_at p ≤ ends_at := by
  unfold next_line
  split
  · omega
  · exact Nat.zero_le _

/-- After any pixel-DMA interrupt the playout line is at most the last
visible line. -/
lemma pixel_irq_playout_le (tb : TimingBuffer) (s : PixelIrqState) :
    (pixel_irq tb s).current_playout_line ≤ tb.visible_lines_ends_at := by
  rw [pixel_irq_playout]
  exact next_line_le _ _

/-- Iterating the pixel-DMA interrupt preserves the playout-line bound. -/
lemma pixel_irq_iter_le (tb : TimingBuffer) (n : Nat) (s : PixelIrqState)
    (h : s.current_playout_line ≤ tb.visible_lines_ends_at) :
    (pixel_irq_iter tb n s).current_playout_line ≤ tb.visible_lines_ends_at := by
  induction n generalizing s with
  | zero => exact h
  | succ n ih => exact ih _ (pixel_irq_playout_le tb s)

/-! ## Claims -/

/-- Claim C7: Decoding the period field of each of the four timing words
(`period = (word >>> 2 &&& 0x3FFF) + 6`) and summing over the four words
gives the same total for all three scan-line categories of both supported
timing buffers: the -5/+5 corrections in the visible-line buffer cancel,
so every scan-line lasts 8000 system clocks (800 pixel clocks at 10
system clocks per pixel). -/
theorem c7_all_scanline_categories_total_8000 :
    (TimingBuffer.make_640x480.visible_line.totalPeriod = 8000 ∧
      TimingBuffer.make_640x480.vblank_porch_buffer.totalPeriod = 8000 ∧
      TimingBuffer.make_640x480.vblank_sync_buffer.totalPeriod = 8000) ∧
    (TimingBuffer.make_640x400.visible_line.totalPeriod = 8000 ∧
      TimingBuffer.make_640x400.vblank_porch_buffer.totalPeriod = 8000 ∧
      TimingBuffer.make_640x400.vblank_sync_buffer.totalPeriod = 8000) ∧
    8000 = 800 * 10 := by
  decide

/-- Claim C3: The external `video_set_mode` BIOS call accepts *every* mode:
it reports success unconditionally and never mutates state, because the
call into `vga::set_video_mode` is commented out in `src/main.rs`.  The
internal `vga::set_video_mode`, by contrast, rejects an unsupported mode
(here 800x600) without mutating anything — so the rejection the claim
describes never reaches the caller. -/
theorem c3_api_set_mode_accepts_everything :
    (∀ (m : Mode) (s : VgaModeState), video_set_mode_api m s = (true, s)) ∧
    set_video_mode (Mode.new Timing.T800x600 Format.Text8x16) VgaModeState.boot =
      (false, VgaModeState.boot) := by
  constructor
  · intro m s
    rfl
  · rfl

/-- Companion fact to claim C3: The internal `vga::set_video_mode` never mutates
state on rejection. -/
theorem c3_internal_rejection_pure (m : Mode) (s : VgaModeState)
    (h : (set_video_mode m s).fst = false) :
    (set_video_mode m s).snd = s := by
  rcases m with ⟨t, f, h2, v2⟩
  cases t <;> cases f <;> cases h2 <;> cases v2 <;>
    first
      | rfl
      | exact absurd h (by simp [set_video_mode])

/-- Witness for `c3_internal_rejection_pure` at a concrete rejected mode. -/
theorem c3_internal_rejection_pure_witness :
    (set_video_mode (Mode.new Timing.T640x480 Format.Chunky32) VgaModeState.boot).snd =
      VgaModeState.boot :=
  c3_internal_rejection_pure (Mode.new Timing.T640x480 Format.Chunky32)
    VgaModeState.boot (by decide)

/-- Claim C4: For every mode `vga::set_video_mode` accepts, `get_video_mode`
afterwards returns that very mode, and `get_num_scan_lines` returns 480
for the 640x480 timing and 400 for the 640x400 timing (and those are the
only accepted timings). -/
theorem c4_set_get_mode_roundtrip (mode : Mode) (s : VgaModeState)
    (h : (set_video_mode mode s).fst = true) :
    get_video_mode (set_video_mode mode s).snd = mode ∧
    (mode.timing = Timing.T640x480 →
      get_num_scan_lines (set_video_mode mode s).snd = 480) ∧
    (mode.timing = Timing.T640x400 →
      get_num_scan_lines (set_video_mode mode s).snd = 400) ∧
    (mode.timing = Timing.T640x480 ∨ mode.timing = Timing.T640x400) := by
  rcases mode with ⟨t, f, h2, v2⟩
  cases t <;> cases f <;> cases h2 <;> cases v2 <;>
    simp_all [set_video_mode, get_video_mode, get_num_scan_lines, Mode.vertical_lines]

/-- Witness for `c4_set_get_mode_roundtrip`: the 640x400 Text8x8 mode is
accepted, round-trips, and reports 400 visible lines. -/
theorem c4_set_get_mode_roundtrip_witness :
    get_video_mode
        (set_video_mode (Mode.new Timing.T640x400 Format.Text8x8) VgaModeState.boot).snd =
      Mode.new Timing.T640x400 Format.Text8x8 ∧
    get_num_scan_lines
        (set_video_mode (Mode.new Timing.T640x400 Format.Text8x8) VgaModeState.boot).snd =
      400 := by
  have h := c4_set_get_mode_roundtrip (Mode.new Timing.T640x400 Format.Text8x8)
    VgaModeState.boot (by decide)
  exact ⟨h.1, h.2.2.1 rfl⟩

/-- Claim C6: In the pixel-DMA interrupt branch: the buffer about to be
queued for playout is the one opposite in parity to the line just played;
if it is not yet marked rendering-done the clash counter increments by
exactly one, otherwise it is unchanged; the buffer is queued either way
and the handler never touches its content. -/
theorem c6_clash_counter (tb : TimingBuffer) (s : PixelIrqState) :
    ((pixel_irq tb s).clashed_count =
      s.clashed_count +
        (if (if s.current_playout_line &&& 1 = 0 then s.oddBuf else s.evenBuf).is_rendering_done
          then 0 else 1)) ∧
    ((pixel_irq tb s).dma_pixel_read_addr =
      if s.current_playout_line &&& 1 = 0 then WhichBuffer.odd else WhichBuffer.even) ∧
    (if s.current_playout_line &&& 1 = 0 then
      (pixel_irq tb s).oddBuf = s.oddBuf
    else
      (pixel_irq tb s).evenBuf = s.evenBuf) := by
  unfold pixel_irq
  dsimp only
  by_cases hp : s.current_playout_line &&& 1 = 0
  · simp only [if_pos hp]
    cases hb : s.oddBuf.is_rendering_done <;> simp [hb]
  · simp only [if_neg hp]
    cases hb : s.evenBuf.is_rendering_done <;> simp [hb]

/-- Claim C10: Starting from playout line 0, any number of pixel-DMA
interrupts keeps `CURRENT_PLAYOUT_LINE` within `0 ..= visible_lines_ends_at`,
so `get_scan_line` stays strictly below the visible scan-line count (480
respectively 400) and never returns the count itself. -/
theorem c10_playout_line_bounded (tb : TimingBuffer) (n : Nat) (s : PixelIrqState)
    (h0 : s.current_playout_line = 0) :
    get_scan_line (pixel_irq_iter tb n s) ≤ tb.visible_lines_ends_at ∧
    (tb = TimingBuffer.make_640x480 → get_scan_line (pixel_irq_iter tb n s) < 480) ∧
    (tb = TimingBuffer.make_640x400 → get_scan_line (pixel_irq_iter tb n s) < 400) := by
  have hle : get_scan_line (pixel_irq_iter tb n s) ≤ tb.visible_lines_ends_at :=
    pixel_irq_iter_le tb n s (by omega)
  refine ⟨hle, ?_, ?_⟩
  · rintro rfl
    have : TimingBuffer.make_640x480.visible_lines_ends_at = 479 := rfl
    omega
  · rintro rfl
    have : TimingBuffer.make_640x400.visible_lines_ends_at = 399 := rfl
    omega

/-- Witness for `c10_playout_line_bounded` after three interrupts from the
boot state of the 640x480 mode. -/
theorem c10_playout_line_bounded_witness :
    get_scan_line (pixel_irq_iter TimingBuffer.make_640x480 3 PixelIrqState.boot) < 480 :=
  (c10_playout_line_bounded TimingBuffer.make_640x480 3 PixelIrqState.boot rfl).2.1 rfl

/-- Claim C1: `video_wait_for_line` does *not* wait for
`min(N, last visible line)`: it clamps `N` to `get_num_scan_lines()` — the
visible-line *count* — so for `N = 480` in the boot 640x480 mode the busy
loop's exit condition demands `get_scan_line() = 480`, a value the playout
line never attains (it stays `≤ 479` from any start at 0): the loop can
never exit, contradicting both the claim and the function's own
documentation ("it waits until the last visible scan-line is complete"). -/
theorem c1_wait_for_line_target_unreachable :
    video_wait_target 480 VgaModeState.boot = 480 ∧
    (∀ (n : Nat) (s : PixelIrqState), s.current_playout_line = 0 →
      get_scan_line (pixel_irq_iter TimingBuffer.make_640x480 n s) ≠
        video_wait_target 480 VgaModeState.boot) := by
  refine ⟨rfl, ?_⟩
  intro n s h0
  have h := pixel_irq_iter_le TimingBuffer.make_640x480 n s (by omega)
  have hends : TimingBuffer.make_640x480.visible_lines_ends_at = 479 := rfl
  intro hc
  have hscan : get_scan_line (pixel_irq_iter TimingBuffer.make_640x480 n s) =
      (pixel_irq_iter TimingBuffer.make_640x480 n s).current_playout_line := rfl
  have htgt : video_wait_target 480 VgaModeState.boot = 480 := rfl
  omega

/-- Witness for `c1_wait_for_line_target_unreachable`: after three
interrupts from boot, the playout line differs from the wait target 480. -/
theorem c1_wait_for_line_target_unreachable_witness :
    get_scan_line (pixel_irq_iter TimingBuffer.make_640x480 3 PixelIrqState.boot) ≠
      video_wait_target 480 VgaModeState.boot :=
  c1_wait_for_line_target_unreachable.2 3 PixelIrqState.boot rfl

/-- Claim C2, counterexample: A requested line whose `text_row` is at or
beyond the visible row count (line 400 with the 8x16 font against 25
rows) does *not* get its buffer marked rendering-done: `render_scanline`
returns early and `ready_for_drawing` is still `true` afterwards,
contradicting the claim that the buffer is marked done. -/
theorem c2_out_of_range_row_keeps_ready_flag :
    (render_scanline
        { format := Format.Text8x16, numRows := 25, numCols := 80,
          grid := fun _ => blankCell, font8bits := fun _ => 0,
          font16bits := fun _ => 0, lut := fun _ => 0 }
        { length := 319, pixels := fun _ => 0, ready_for_drawing := true,
          line_number := 400 }).ready_for_drawing = true := by
  rfl

/-- Claim C2 as amended: When `text_row = line_number >> height_shift` is at
or beyond the current visible row count, `render_scanline` returns with
the buffer completely untouched: no pixels are written, but the buffer is
*not* marked rendering-done either — `ready_for_drawing` keeps its value
(it is the unsupported-column-count case that marks done with no pixels
written). -/
theorem c2_amended_render_returns_buffer_untouched :
    (∀ (env : RenderEnv) (buf : LineBuffer), env.format = Format.Text8x16 →
      buf.line_number >>> 4 ≥ env.numRows → render_scanline env buf = buf) ∧
    (∀ (env : RenderEnv) (buf : LineBuffer), env.format = Format.Text8x8 →
      buf.line_number >>> 3 ≥ env.numRows → render_scanline env buf = buf) := by
  constructor
  · intro env buf hf h
    unfold render_scanline
    rw [hf]
    dsimp only [font16FONT]
    rw [if_pos h]
  · intro env buf hf h
    unfold render_scanline
    rw [hf]
    dsimp only [font8FONT]
    rw [if_pos h]

/-- Witness for `c2_amended_render_returns_buffer_untouched`: line 480
with the 8x16 font against 30 rows leaves the buffer untouched. -/
theorem c2_amended_render_returns_buffer_untouched_witness :
    render_scanline
        { format := Format.Text8x16, numRows := 30, numCols := 80,
          grid := fun _ => blankCell, font8bits := fun _ => 0,
          font16bits := fun _ => 0, lut := fun _ => 0 }
        { length := 319, pixels := fun _ => 1, ready_for_drawing := true,
          line_number := 480 } =
      { length := 319, pixels := fun _ => 1, ready_for_drawing := true,
        line_number := 480 } :=
  c2_amended_render_returns_buffer_untouched.1
    { format := Format.Text8x16, numRows := 30, numCols := 80,
      grid := fun _ => blankCell, font8bits := fun _ => 0,
      font16bits := fun _ => 0, lut := fun _ => 0 }
    { length := 319, pixels := fun _ => 1, ready_for_drawing := true,
      line_number := 480 }
    rfl (by decide)

/-! ## Point-update evaluation lemmas -/

lemma upd_self (g : Nat → A) (k : Nat) (v : A) : upd g k v k = v := by
  simp [upd]

lemma upd_other (g : Nat → A) (k : Nat) (v : A) (i : Nat) (h : i ≠ k) :
    upd g k v i = g i := by
  simp [upd, h]

/-- Two applications of `next_line` from inside the wrap range land on
`(p + 2) % (ends_at + 1)`. -/
lemma next_line_twice_mod (ends_at p : Nat) (h : p ≤ ends_at) :
    next_line ends_at (next_line ends_at p) = (p + 2) % (ends_at + 1) := by
  unfold next_line
  by_cases h1 : p < ends_at
  · rw [if_pos h1]
    by_cases h2 : p + 1 < ends_at
    · rw [if_pos h2, Nat.mod_eq_of_lt (by omega)]
    · rw [if_neg h2]
      have hp : p + 2 = ends_at + 1 := by omega
      rw [hp, Nat.mod_self]
  · rw [if_neg h1]
    have hp : p = ends_at := by omega
    by_cases h0 : 0 < ends_at
    · rw [if_pos h0, hp]
      have : ends_at + 2 = (ends_at + 1) + 1 := by omega
      rw [this, Nat.add_mod_left, Nat.mod_eq_of_lt (by omega)]
    · rw [if_neg h0]
      have he : ends_at = 0 := by omega
      subst he
      subst hp
      rfl

/-- Claim C5: The line tag the interrupt hands to the Render Loop always
equals `(playout + 2) mod (visible line count)` and is strictly below the
visible line count (480 / 400 in the two supported timing buffers); the
render's `text_row = N >> height_shift` and `font_row = N & (height - 1)`
equal `N / height` and `N % height` for both font heights 16 (shift 4)
and 8 (shift 3); and each rendered column reads its glyph bitmap byte at
table offset `font_base + glyph`, i.e. from the `font_row`-th row slice of
the font. -/
theorem c5_line_tag_and_font_rows (tb : TimingBuffer) (s : PixelIrqState)
    (h : s.current_playout_line ≤ tb.visible_lines_ends_at) :
    ((if s.current_playout_line &&& 1 = 0 then (pixel_irq tb s).evenBuf.line_number
      else (pixel_irq tb s).oddBuf.line_number) =
        (s.current_playout_line + 2) % (tb.visible_lines_ends_at + 1)) ∧
    ((if s.current_playout_line &&& 1 = 0 then (pixel_irq tb s).evenBuf.line_number
      else (pixel_irq tb s).oddBuf.line_number) < tb.visible_lines_ends_at + 1) ∧
    TimingBuffer.make_640x480.visible_lines_ends_at + 1 = 480 ∧
    TimingBuffer.make_640x400.visible_lines_ends_at + 1 = 400 ∧
    (∀ bits : Nat → Nat,
      (font16FONT bits).height_shift = 4 ∧ (font8FONT bits).height_shift = 3) ∧
    (∀ n : Nat,
      n >>> 4 = n / 16 ∧ n &&& (1 <<< 4 - 1) = n % 16 ∧
      n >>> 3 = n / 8 ∧ n &&& (1 <<< 3 - 1) = n % 8) ∧
    (∀ (env : RenderEnv) (font_base row_start col : Nat)
        (fontData : Nat → Nat) (px : Nat → Nat),
      render_col env font_base row_start col fontData px (4 * col + 3) =
        colour_lookup env.lut (env.grid (row_start + col)).attr
          (fontData (font_base + (env.grid (row_start + col)).glyph))) := by
  have htag : (if s.current_playout_line &&& 1 = 0 then (pixel_irq tb s).evenBuf.line_number
      else (pixel_irq tb s).oddBuf.line_number) =
      next_line tb.visible_lines_ends_at (next_line tb.visible_lines_ends_at
        s.current_playout_line) := by
    unfold pixel_irq
    dsimp only
    by_cases hp : s.current_playout_line &&& 1 = 0
    · simp only [if_pos hp]
      rfl
    · simp only [if_neg hp]
      rfl
  refine ⟨?_, ?_, rfl, rfl, ?_, ?_, ?_⟩
  · rw [htag]
    exact next_line_twice_mod _ _ h
  · rw [htag]
    have := next_line_le tb.visible_lines_ends_at
      (next_line tb.visible_lines_ends_at s.current_playout_line)
    omega
  · intro bits
    exact ⟨rfl, rfl⟩
  · intro n
    refine ⟨?_, ?_, ?_, ?_⟩
    · rw [Nat.shiftRight_eq_div_pow]
    · have h15 : (1 <<< 4 - 1 : Nat) = 2 ^ 4 - 1 := rfl
      rw [h15, Nat.and_pow_two_sub_one_eq_mod]
    · rw [Nat.shiftRight_eq_div_pow]
    · have h7 : (1 <<< 3 - 1 : Nat) = 2 ^ 3 - 1 := rfl
      rw [h7, Nat.and_pow_two_sub_one_eq_mod]
  · intro env font_base row_start col fontData px
    unfold render_col
    exact upd_self ..

/-- Witness for `c5_line_tag_and_font_rows` at the boot interrupt state of
the 640x480 timing buffer: the tag handed out is `2 = (0 + 2) % 480`. -/
theorem c5_line_tag_and_font_rows_witness :
    (if PixelIrqState.boot.current_playout_line &&& 1 = 0 then
      (pixel_irq TimingBuffer.make_640x480 PixelIrqState.boot).evenBuf.line_number
    else
      (pixel_irq TimingBuffer.make_640x480 PixelIrqState.boot).oddBuf.line_number) =
      (PixelIrqState.boot.current_playout_line + 2) %
        (TimingBuffer.make_640x480.visible_lines_ends_at + 1) :=
  (c5_line_tag_and_font_rows TimingBuffer.make_640x480 PixelIrqState.boot
    (by decide)).1

/-! ## Console behaviour lemmas -/

/-- Writing a printable character with room left on the line and the
cursor away from the row limit: store the cell at `col + numCols * row`
and advance the column. -/
lemma write_char_printable_no_wrap (ch : Nat) (s : ConsoleState)
    (h10 : ch ≠ 10) (h13 : ch ≠ 13)
    (hc : s.col + 1 < s.numCols) (hr : s.row ≠ s.numRows) :
    write_char ch s =
      { s with
        grid := upd s.grid (s.col + s.numCols * s.row)
          { glyph := (convert_char ch).getD 63, attr := s.attr }
        col := s.col + 1 } := by
  unfold write_char write_at
  simp only [if_neg h10, if_neg h13]
  rw [if_neg (by omega : ¬ s.col + 1 = s.numCols), if_neg hr]

/-- Writing a printable character at the last column (cursor short of the
row limit): store the cell, wrap to column 0 of the next row. -/
lemma write_char_printable_wrap (ch : Nat) (s : ConsoleState)
    (h10 : ch ≠ 10) (h13 : ch ≠ 13)
    (hc : s.col + 1 = s.numCols) (hr : s.row + 1 ≠ s.numRows) :
    write_char ch s =
      { s with
        grid := upd s.grid (s.col + s.numCols * s.row)
          { glyph := (convert_char ch).getD 63, attr := s.attr }
        col := 0
        row := s.row + 1 } := by
  unfold write_char write_at
  simp only [if_neg h10, if_neg h13]
  rw [if_pos hc]
  rw [if_neg hr]

/-- Writing a printable character at the last column of the last row:
store the cell, wrap, scroll the grid up a row and blank the last row,
leaving the cursor at column 0 of the (unchanged) last row. -/
lemma write_char_printable_scroll (ch : Nat) (s : ConsoleState)
    (h10 : ch ≠ 10) (h13 : ch ≠ 13)
    (hc : s.col + 1 = s.numCols) (hr : s.row + 1 = s.numRows) :
    write_char ch s =
      { s with
        grid :=
          blank_row s.numCols (s.numRows - 1) s.numCols
            (fun i =>
              if i < s.numCols * (s.numRows - 1) then
                upd s.grid (s.col + s.numCols * s.row)
                  { glyph := (convert_char ch).getD 63, attr := s.attr } (i + s.numCols)
              else
                upd s.grid (s.col + s.numCols * s.row)
                  { glyph := (convert_char ch).getD 63, attr := s.attr } i)
        col := 0
        row := s.numRows - 1 } := by
  unfold write_char write_at
  simp only [if_neg h10, if_neg h13]
  rw [if_pos hc]
  rw [if_pos hr]

/-- A blanked cell really is blank, for every column of the blanked row. -/
lemma blank_row_hit (num_cols row n : Nat) (g : Nat → GlyphAttr) (j : Nat)
    (hj : j < n) :
    blank_row num_cols row n g (j + num_cols * row) = blankCell := by
  induction n with
  | zero => omega
  | succ n ih =>
    unfold blank_row
    by_cases hje : j = n
    · subst hje
      exact upd_self ..
    · rw [upd_other _ _ _ _ (by omega)]
      exact ih (by omega)

/-- Offsets outside the blanked row are untouched by the blanking loop. -/
lemma blank_row_miss (num_cols row n : Nat) (g : Nat → GlyphAttr) (i : Nat)
    (h : ∀ j, j < n → i ≠ j + num_cols * row) :
    blank_row num_cols row n g i = g i := by
  induction n with
  | zero => rfl
  | succ n ih =>
    unfold blank_row
    rw [upd_other _ _ _ _ (h n (by omega))]
    exact ih (fun j hj => h j (by omega))

/-- Claim C8: Console boundary behaviour: `move_to` ignores each axis that
is out of range and honours each axis that is in range; writing a
printable character at the last column wraps the cursor to column 0 of
the next row; and writing at the last column of the last row keeps the
cursor on the last row, copies every cell up by one row's worth of
offsets, and fills the new last row with blank cells. -/
theorem c8_console_boundaries :
    (∀ (r c : Nat) (s : ConsoleState),
      (s.numRows ≤ r → (move_to r c s).row = s.row) ∧
      (s.numCols ≤ c → (move_to r c s).col = s.col) ∧
      (r < s.numRows → (move_to r c s).row = r) ∧
      (c < s.numCols → (move_to r c s).col = c)) ∧
    (∀ (ch : Nat) (s : ConsoleState), ch ≠ 10 → ch ≠ 13 →
      s.col + 1 = s.numCols → s.row + 1 < s.numRows →
      (write_str [ch] s).col = 0 ∧ (write_str [ch] s).row = s.row + 1) ∧
    (∀ (ch : Nat) (s : ConsoleState), ch ≠ 10 → ch ≠ 13 →
      1 ≤ s.numCols → 1 ≤ s.numRows →
      s.col = s.numCols - 1 → s.row = s.numRows - 1 →
      (write_str [ch] s).row = s.numRows - 1 ∧
      (write_str [ch] s).col = 0 ∧
      (∀ i, i < s.numCols * (s.numRows - 1) →
        (write_str [ch] s).grid i =
          upd s.grid (s.col + s.numCols * s.row)
            { glyph := (convert_char ch).getD 63, attr := s.attr } (i + s.numCols)) ∧
      (∀ j, j < s.numCols →
        (write_str [ch] s).grid (j + s.numCols * (s.numRows - 1)) = blankCell)) := by
  refine ⟨?_, ?_, ?_⟩
  · intro r c s
    unfold move_to
    refine ⟨?_, ?_, ?_, ?_⟩ <;> intro h <;>
      by_cases h1 : r < s.numRows <;> by_cases h2 : c < s.numCols <;>
        simp [h1, h2] <;> omega
  · intro ch s h10 h13 hc hr
    have hstep : write_str [ch] s = write_char ch s := rfl
    rw [hstep, write_char_printable_wrap ch s h10 h13 hc (by omega)]
    exact ⟨rfl, rfl⟩
  · intro ch s h10 h13 hnc hnr hc hr
    have hstep : write_str [ch] s = write_char ch s := rfl
    rw [hstep, write_char_printable_scroll ch s h10 h13 (by omega) (by omega)]
    refine ⟨rfl, rfl, ?_, ?_⟩
    · intro i hi
      dsimp only
      rw [blank_row_miss _ _ _ _ _ (by intro j hj; omega)]
      rw [if_pos hi, hc, hr]
    · intro j hj
      dsimp only
      exact blank_row_hit _ _ _ _ _ hj

/-- Witness for `c8_console_boundaries` on the boot console: moving to
(40, 5) keeps row 0 and sets column 5; writing at the last column of row 0
wraps to (1, 0); and writing at the bottom-right corner scrolls, blanking
the cell at the start of the last row. -/
theorem c8_console_boundaries_witness :
    (move_to 40 5 ConsoleState.boot).row = ConsoleState.boot.row ∧
    (move_to 40 5 ConsoleState.boot).col = 5 ∧
    (write_str [65] { ConsoleState.boot with col := 79 }).col = 0 ∧
    (write_str [65] { ConsoleState.boot with col := 79 }).row = 1 ∧
    (write_str [66] { ConsoleState.boot with col := 79, row := 29 }).row = 29 ∧
    (write_str [66] { ConsoleState.boot with col := 79, row := 29 }).grid
        (0 + 80 * 29) = blankCell := by
  have h1 := (c8_console_boundaries.1 40 5 ConsoleState.boot).1 (by decide)
  have h2 := (c8_console_boundaries.1 40 5 ConsoleState.boot).2.2.2 (by decide)
  have h3 := c8_console_boundaries.2.1 65 { ConsoleState.boot with col := 79 }
    (by decide) (by decide) (by decide) (by decide)
  have h4 := c8_console_boundaries.2.2 66 { ConsoleState.boot with col := 79, row := 29 }
    (by decide) (by decide) (by decide) (by decide) (by decide) (by decide)
  exact ⟨h1, h2, h3.1, h3.2, h4.1, h4.2.2.2 0 (by decide)⟩

/-- Writing a run of printable characters that fits on the current line
(cursor short of the last row) stores each converted glyph with the
current attribute at consecutive offsets and touches nothing else. -/
lemma write_str_ascii_grid (chars : List Nat) (s : ConsoleState)
    (hascii : ∀ ch ∈ chars, ch ≠ 10 ∧ ch ≠ 13)
    (hlen : s.col + chars.length ≤ s.numCols)
    (hrow : s.row + 1 < s.numRows) (o : Nat) :
    (write_str chars s).grid o =
      if s.col + s.numCols * s.row ≤ o ∧
          o < s.col + s.numCols * s.row + chars.length then
        { glyph := (convert_char (chars.getD (o - (s.col + s.numCols * s.row)) 0)).getD 63,
          attr := s.attr }
      else s.grid o := by
  induction chars generalizing s with
  | nil =>
    rw [if_neg (by simp only [List.length_nil]; omega)]
    rfl
  | cons ch tail ih =>
    have hch := hascii ch (List.mem_cons_self ch tail)
    have hstep : write_str (ch :: tail) s = write_str tail (write_char ch s) := rfl
    by_cases hwrap : s.col + 1 = s.numCols
    · have htail : tail = [] := by
        have := hlen
        simp only [List.length_cons] at this
        exact List.length_eq_zero.mp (by omega)
      subst htail
      rw [hstep]
      rw [write_char_printable_wrap ch s hch.1 hch.2 hwrap (by omega)]
      dsimp only [write_str, List.foldl]
      by_cases ho : o = s.col + s.numCols * s.row
      · rw [if_pos (by simp only [List.length_cons, List.length_nil]; omega), ho,
          upd_self, Nat.sub_self, List.getD_cons_zero]
      · rw [if_neg (by simp only [List.length_cons, List.length_nil]; omega)]
        exact upd_other _ _ _ _ ho
    · have hcol : s.col + 1 < s.numCols := by
        have := hlen
        simp only [List.length_cons] at this
        omega
      have hlen' : s.col + 1 + tail.length ≤ s.numCols := by
        simp only [List.length_cons] at hlen
        omega
      rw [hstep]
      rw [write_char_printable_no_wrap ch s hch.1 hch.2 hcol (by omega)]
      rw [ih { s with
          grid := upd s.grid (s.col + s.numCols * s.row)
            { glyph := (convert_char ch).getD 63, attr := s.attr }
          col := s.col + 1 }
        (fun c hc => hascii c (List.mem_cons_of_mem ch hc)) hlen' hrow]
      dsimp only
      by_cases h1 : o = s.col + s.numCols * s.row
      · rw [if_neg (by omega), if_pos (by simp only [List.length_cons]; omega), h1,
          upd_self, Nat.sub_self, List.getD_cons_zero]
      · by_cases h2 : s.col + 1 + s.numCols * s.row ≤ o ∧
            o < s.col + 1 + s.numCols * s.row + tail.length
        · rw [if_pos (by omega), if_pos (by simp only [List.length_cons]; omega)]
          have hsub : o - (s.col + s.numCols * s.row) =
              (o - (s.col + 1 + s.numCols * s.row)) + 1 := by omega
          rw [hsub, List.getD_cons_succ]
        · rw [if_neg (by omega), if_neg (by simp only [List.length_cons]; omega)]
          exact upd_other _ _ _ _ h1

/-- Claim C9: Writing printable characters via the Text Console stores, at
grid offset `row * num_cols + col + i` for the `i`-th character, a cell
whose glyph index is the character's code (for 7-bit ASCII) and whose
attribute byte is the currently set attribute; in particular writing
"Hi\n" at cursor (0,0) on the boot 80-column console leaves 'H' at
(0,0), 'i' at (0,1) and the cursor at (1,0). -/
theorem c9_ascii_roundtrip :
    (∀ (chars : List Nat) (s : ConsoleState),
      (∀ ch ∈ chars, ch ≤ 127 ∧ ch ≠ 10 ∧ ch ≠ 13) →
      s.col + chars.length ≤ s.numCols →
      s.row + 1 < s.numRows →
      ∀ i, i < chars.length →
        (write_str chars s).grid (s.row * s.numCols + (s.col + i)) =
          { glyph := chars.getD i 0, attr := s.attr }) ∧
    ((write_str [72, 105, 10] ConsoleState.boot).grid 0 =
        { glyph := 72, attr := AttrNew 15 0 false } ∧
      (write_str [72, 105, 10] ConsoleState.boot).grid 1 =
        { glyph := 105, attr := AttrNew 15 0 false } ∧
      (write_str [72, 105, 10] ConsoleState.boot).row = 1 ∧
      (write_str [72, 105, 10] ConsoleState.boot).col = 0) := by
  constructor
  · intro chars s hascii hlen hrow i hi
    have h := write_str_ascii_grid chars s
      (fun c hc => ⟨(hascii c hc).2.1, (hascii c hc).2.2⟩) hlen hrow
      (s.row * s.numCols + (s.col + i))
    have hoff : s.row * s.numCols + (s.col + i) =
        s.col + s.numCols * s.row + i := by ring
    rw [hoff] at h ⊢
    rw [h, if_pos (by omega)]
    have hsub : s.col + s.numCols * s.row + i - (s.col + s.numCols * s.row) = i := by
      omega
    rw [hsub]
    have hmem : chars.getD i 0 ∈ chars := by
      rw [List.getD_eq_getElem _ _ hi]
      exact List.getElem_mem hi
    have hle : chars.getD i 0 ≤ 127 := (hascii _ hmem).1
    unfold convert_char
    rw [if_pos hle, Option.getD_some]
  · refine ⟨?_, ?_, ?_, ?_⟩ <;> decide

/-- Witness for `c9_ascii_roundtrip`: writing "A" on the boot console
stores glyph 65 with the white-on-black attribute at offset 0. -/
theorem c9_ascii_roundtrip_witness :
    (write_str [65] ConsoleState.boot).grid
        (ConsoleState.boot.row * ConsoleState.boot.numCols +
          (ConsoleState.boot.col + 0)) =
      { glyph := [65].getD 0 0, attr := ConsoleState.boot.attr } :=
  c9_ascii_roundtrip.1 [65] ConsoleState.boot (by decide) (by decide) (by decide)
    0 (by decide)

end Neotron
